import Mathlib

/-!
Verification of the yt-doc-mvp pipeline: a shallow embedding of
`src/schemas.py`, `src/utils.py`, `src/processor.py` and `src/main.py`,
together with theorems settling the specification claims about URL
validation and identifier extraction, the metadata fallback chain, the
transcript selection and truncation policy, duration formatting and the
document formatter.

Python strings are modelled as `String` (or `List Char` where character
counting matters: Python `len`/slicing act on code points, as do
`List Char` operations).  Python exceptions raised by external library
calls are modelled as `none`/`Except.error` values; the behaviour of the
external provider libraries is captured by explicit environment records.
-/

set_option maxRecDepth 4000

namespace YtDoc

/-! ### URL shapes (`src/schemas.py`)

The three regular expressions of `validate_youtube_url` and
`extract_video_id` are
`(?:https?://)?(?:www\.)?youtube\.com/watch\?v=([a-zA-Z0-9_-]{11})`,
`(?:https?://)?(?:www\.)?youtu\.be/([a-zA-Z0-9_-]{11})` and
`(?:https?://)?(?:www\.)?youtube\.com/embed/([a-zA-Z0-9_-]{11})`.
Each is an optional scheme, an optional `www.`, a literal marker and a
captured group of exactly 11 identifier characters.  `re.match` anchors
at the start of the string; `re.search` tries every start position,
leftmost match first.  We embed the patterns by that structure. -/

/-- The character class `[a-zA-Z0-9_-]` (ASCII letters and digits only,
matching Python's default `re` semantics on these ranges). -/
def idChar (c : Char) : Bool :=
  c.isAlpha || c.isDigit || c == '_' || c == '-'

/-- Literal part of pattern 1 after the optional scheme and `www.`. -/
def watchMarker : List Char := "youtube.com/watch?v=".data

/-- Literal part of pattern 2 after the optional scheme and `www.`. -/
def shortMarker : List Char := "youtu.be/".data

/-- Literal part of pattern 3 after the optional scheme and `www.`. -/
def embedMarker : List Char := "youtube.com/embed/".data

/-- The three patterns, in the order both source functions try them. -/
def markers : List (List Char) := [watchMarker, shortMarker, embedMarker]

/-- Consume a literal: if `p` is a prefix of `s`, return the rest. -/
def stripLit (p s : List Char) : Option (List Char) :=
  if p.isPrefixOf s then some (s.drop p.length) else none

/-- Match the capture group `([a-zA-Z0-9_-]{11})` at the front of `s`
(the pattern ends with the group, so anything may follow). -/
def matchIdHere (s : List Char) : Option (List Char) :=
  if (s.take 11).length == 11 && (s.take 11).all idChar then
    some (s.take 11)
  else none

/-- Match `marker` followed by the capture group at the front of `s`. -/
def matchCore (marker s : List Char) : Option (List Char) :=
  (stripLit marker s).bind matchIdHere

/-- Match `(?:www\.)?marker(group)` at the front of `t`, with the regex
engine's backtracking order: `www.` consumed first, then not. -/
def matchAfterWww (marker t : List Char) : Option (List Char) :=
  match stripLit "www.".data t with
  | some u =>
    match matchCore marker u with
    | some g => some g
    | none => matchCore marker t
  | none => matchCore marker t

/-- Match a whole pattern at the front of `s` (the semantics of
`re.match`): optional `https://` or `http://`, then the optional `www.`,
marker and group, with backtracking over the optional scheme. -/
def matchShape (marker s : List Char) : Option (List Char) :=
  match stripLit "https://".data s with
  | some t =>
    match matchAfterWww marker t with
    | some g => some g
    | none => matchAfterWww marker s
  | none =>
    match stripLit "http://".data s with
    | some t =>
      match matchAfterWww marker t with
      | some g => some g
      | none => matchAfterWww marker s
    | none => matchAfterWww marker s

/-- The semantics of `re.search`: try `matchShape` at every start
position, leftmost first. -/
def searchShape (marker : List Char) : List Char → Option (List Char)
  | [] => matchShape marker []
  | c :: rest =>
    match matchShape marker (c :: rest) with
    | some g => some g
    | none => searchShape marker rest

/-- `VideoQuery.validate_youtube_url` (src/schemas.py lines 16-29):
accepts `v` when some pattern `re.match`-es it, else raises
`ValueError("Invalid YouTube URL format")`. -/
def validate_youtube_url (v : String) : Except String String :=
  if markers.any (fun m => (matchShape m v.data).isSome) then Except.ok v
  else Except.error "Invalid YouTube URL format"

/-- The group returned by the first pattern whose `re.search` succeeds
on `url`, as in `extract_video_id`. -/
def extractedId (url : String) : Option (List Char) :=
  (markers.filterMap (fun m => searchShape m url.data)).head?

/-- `VideoQuery.extract_video_id` (src/schemas.py lines 38-51): the
first pattern that `re.search`-es anywhere in the URL yields its group;
otherwise `ValueError("Could not extract video ID from URL")`. -/
def extract_video_id (url : String) : Except String String :=
  match extractedId url with
  | some g => Except.ok (String.mk g)
  | none => Except.error "Could not extract video ID from URL"

/-- The extracted token of a URL (`[]` when extraction fails). -/
def tokenOf (url : String) : List Char := (extractedId url).getD []

example : validate_youtube_url "https://www.youtube.com/watch?v=dQw4w9WgXcQ" =
    Except.ok "https://www.youtube.com/watch?v=dQw4w9WgXcQ" := rfl

example : extract_video_id "https://www.youtube.com/watch?v=dQw4w9WgXcQ" =
    Except.ok "dQw4w9WgXcQ" := rfl

example : validate_youtube_url "youtu.be/abc" =
    Except.error "Invalid YouTube URL format" := rfl

example : validate_youtube_url "xyoutu.be/dQw4w9WgXcQ" =
    Except.error "Invalid YouTube URL format" := rfl

example : extract_video_id "xyoutu.be/dQw4w9WgXcQ" =
    Except.ok "dQw4w9WgXcQ" := rfl

/-! ### `src/utils.py` -/

/-- `format_duration` (src/utils.py lines 9-20).  Python `//` and `%`
are floor division and a remainder with the divisor's sign; for the
positive divisors 3600 and 60 these are `Int.fdiv` and `Int.emod`. -/
def format_duration (seconds : Int) : String :=
  let hours := seconds.fdiv 3600
  let minutes := (seconds.emod 3600).fdiv 60
  let secs := seconds.emod 60
  if hours > 0 then
    toString hours ++ "h " ++ toString minutes ++ "m " ++ toString secs ++ "s"
  else if minutes > 0 then
    toString minutes ++ "m " ++ toString secs ++ "s"
  else
    toString secs ++ "s"

/-- Split a reversed digit list into groups of three, least significant
group first, as Python's `{n:,}` format groups thousands. -/
def chunk3 : List Char → List (List Char)
  | [] => []
  | [a] => [[a]]
  | [a, b] => [[a, b]]
  | a :: b :: c :: rest => [a, b, c] :: chunk3 rest

/-- Python's thousands-grouped integer rendering `f"{n:,}"`. -/
def commaGroup (n : Int) : String :=
  let sign := if n < 0 then "-" else ""
  let digits := (toString n.natAbs).data
  let grouped := ((chunk3 digits.reverse).map List.reverse).reverse
  sign ++ String.mk (List.intercalate [','] grouped)

example : commaGroup 1234567 = "1,234,567" := rfl
example : commaGroup 100 = "100" := rfl
example : format_duration 3725 = "1h 2m 5s" := rfl

/-! ### Data model (`src/schemas.py` and the dicts of `src/processor.py`)

Every dict built by `_get_video_info*` and the minimal fallback carries
the same nine keys (plus `detected_transcript_language`, added by
`process_video` when a transcript is found), so the video-info dict is
modelled as a record in which each key is always present though its
value may be Python `None` (`Option`). -/

structure PyVideoInfo where
  title : String
  description : Option String
  duration : Int
  view_count : Option Int
  channel : Option String
  upload_date : Option String
  url : String
  video_id : String
  thumbnail_url : Option String
  detected_transcript_language : Option String := none
deriving DecidableEq

/-- `VideoQuery` (src/schemas.py lines 8-14), after validation. -/
structure VideoQuery where
  url : String
  max_transcript_length : Int
  include_comments : Bool
  language : String
deriving DecidableEq

/-- Constructing a `VideoQuery` through pydantic: both field validators
(`validate_youtube_url`, `validate_transcript_length`) run and a
`ValidationError` collecting every message is raised when any fails. -/
def mkVideoQuery (url : String) (max_transcript_length : Int)
    (language : String) : Except (List String) VideoQuery :=
  let errs :=
    (match validate_youtube_url url with
     | Except.ok _ => []
     | Except.error e => [e]) ++
    (if max_transcript_length < 100 then
      ["Transcript length must be at least 100 characters"] else [])
  if errs.isEmpty then
    Except.ok ⟨url, max_transcript_length, false, language⟩
  else
    Except.error errs

/-! ### Metadata fetching (`src/processor.py` lines 61-133)

The two provider tiers are external libraries; a `MetadataEnv` records
whether each library is importable and what its call would do
(`none` models the call raising an exception). -/

structure MetadataEnv where
  ytDlpAvailable : Bool
  ytDlpResult : Option PyVideoInfo
  pytubeAvailable : Bool
  pytubeResult : Option PyVideoInfo

/-- The minimal-fallback dict of `_get_video_info` (lines 77-88). -/
def minimalFallbackInfo (video_id url : String) : PyVideoInfo :=
  { title := "Video " ++ video_id
    description := some "Description not available"
    duration := 0
    view_count := none
    channel := some "Unknown Channel"
    upload_date := none
    url := url
    video_id := video_id
    thumbnail_url :=
      some ("https://img.youtube.com/vi/" ++ video_id ++ "/maxresdefault.jpg") }

/-- `YouTubeProcessor._get_video_info` (lines 61-88): try yt-dlp when
importable (an exception is caught and logged), then pytube likewise,
then return the minimal fallback dict.  Total: it never raises. -/
def get_video_info (env : MetadataEnv) (video_id url : String) : PyVideoInfo :=
  match (if env.ytDlpAvailable then env.ytDlpResult else none) with
  | some info => info
  | none =>
    match (if env.pytubeAvailable then env.pytubeResult else none) with
    | some info => info
    | none => minimalFallbackInfo video_id url

/-! ### Transcript fetching (`src/processor.py` lines 135-190)

A caption track as enumerated by the external
`youtube_transcript_api`; `fetched` is the behaviour of
`transcript.fetch()` and `formatted` that of
`TextFormatter.format_transcript` on the fetched segments (`none`
models the call raising). -/

structure CaptionTrack where
  language_code : String
  is_generated : Bool
  fetched : Option (Option (List Char))
deriving DecidableEq

/-- The object returned by `YouTubeTranscriptApi.list_transcripts`. -/
structure TranscriptList where
  tracks : List CaptionTrack
deriving DecidableEq

/-- Environment for one `_get_transcript` call: library availability and
the outcome of `list_transcripts` (`none` models it raising). -/
structure TranscriptEnv where
  apiAvailable : Bool
  formatterAvailable : Bool
  listResult : Option TranscriptList

/-- `TranscriptList.find_manually_created_transcript([language])` of the
external library: the first manually-created track whose language code
matches, raising `NoTranscriptFound` (here `none`) otherwise. -/
def find_manually_created (tl : TranscriptList) (language : String) :
    Option CaptionTrack :=
  tl.tracks.find? (fun t => !t.is_generated && t.language_code == language)

/-- `TranscriptList.find_generated_transcript([language])` likewise. -/
def find_generated (tl : TranscriptList) (language : String) :
    Option CaptionTrack :=
  tl.tracks.find? (fun t => t.is_generated && t.language_code == language)

/-- The track-selection logic of `_get_transcript` (lines 150-172):
manual track in the requested language, else generated track in the
requested language (both keep `detected_language = language`), else the
first manually-created track of any language, else the first track of
any kind (both set `detected_language` to the track's code). -/
def selectTrack (tl : TranscriptList) (language : String) :
    Option (CaptionTrack × String) :=
  match find_manually_created tl language with
  | some t => some (t, language)
  | none =>
    match find_generated tl language with
    | some t => some (t, language)
    | none =>
      match tl.tracks.find? (fun t => !t.is_generated) with
      | some t => some (t, t.language_code)
      | none =>
        match tl.tracks.head? with
        | some t => some (t, t.language_code)
        | none => none

/-- The literal truncation marker appended at line 181. -/
def truncMarker : List Char := "\n[Transcript truncated...]".data

/-- `YouTubeProcessor._get_transcript` (lines 135-190).  The guard at
line 142 returns `(None, None)` when either library is missing; the
outer `except` turns any exception from `list_transcripts`, `fetch` or
the formatter into `(None, None)`; an empty track list also yields
`(None, None)`; otherwise the formatted text is truncated to
`max_length` characters plus the marker when it is longer than
`max_length` (and `max_length` is truthy). -/
def get_transcript (env : TranscriptEnv) (video_id : String)
    (language : String) (max_length : Nat) :
    Option (List Char) × Option String :=
  if !env.apiAvailable || !env.formatterAvailable then (none, none)
  else
    match env.listResult with
    | none => (none, none)
    | some tl =>
      match selectTrack tl language with
      | none => (none, none)
      | some (t, detected) =>
        match t.fetched with
        | none => (none, none)
        | some fr =>
          match fr with
          | none => (none, none)
          | some text =>
            if max_length != 0 && decide (text.length > max_length) then
              (some (text.take max_length ++ truncMarker), some detected)
            else (some text, some detected)

/-- The track (with its detected language) that a call in environment
`env` would select, going through `list_transcripts` first. -/
def selectedOf (env : TranscriptEnv) (language : String) :
    Option (CaptionTrack × String) :=
  env.listResult.bind (fun tl => selectTrack tl language)

/-- The formatted transcript text a call in environment `env` would
reach the truncation step with (`none` when any stage fails). -/
def formattedOf (env : TranscriptEnv) (language : String) :
    Option (List Char) :=
  (selectedOf env language).bind (fun p => p.1.fetched.bind (fun fr => fr))

/-! ### `src/main.py` -/

/-- Python's f-string rendering of a value that may be `None`. -/
def pyOptStr : Option String → String
  | some s => s
  | none => "None"

/-- The list `output` built by `format_output` (src/main.py lines
113-147), before the final `"\n".join`.  Each `if video_info.get(k):`
is Python truthiness: the key is always present in the dicts this
program builds, so the tests reduce to non-`None` and non-zero /
non-empty.  `transcript` is truthy iff non-`None` and non-empty. -/
def format_output_lines (info : PyVideoInfo) (transcript : Option String) :
    List String :=
  ["# YouTube Video Documentation\n",
   "## " ++ info.title ++ "\n",
   "### Metadata\n",
   "- **Video ID**: " ++ info.video_id,
   "- **Channel**: " ++ pyOptStr info.channel,
   "- **Duration**: " ++ format_duration info.duration]
  ++ (match info.view_count with
      | some n => if n != 0 then ["- **Views**: " ++ commaGroup n] else []
      | none => [])
  ++ (match info.upload_date with
      | some d => if d != "" then ["- **Upload Date**: " ++ d] else []
      | none => [])
  ++ ["- **URL**: " ++ info.url ++ "\n"]
  ++ (match info.description with
      | some d =>
        if d != "" then ["### Description\n", d, "\n"] else []
      | none => [])
  ++ (match transcript with
      | some t =>
        if t != "" then
          ["### Transcript\n"]
          ++ (match info.detected_transcript_language with
              | some l => if l != "" then ["*Language: " ++ l ++ "*\n"] else []
              | none => [])
          ++ [t]
        else ["### Transcript\n", "*Transcript not available for this video.*\n"]
      | none => ["### Transcript\n", "*Transcript not available for this video.*\n"])

/-- `format_output` (src/main.py lines 113-147): the joined document. -/
def format_output (info : PyVideoInfo) (transcript : Option String) : String :=
  String.intercalate "\n" (format_output_lines info transcript)

/-- The responses the `/process` route can produce: the rendered result
page, the 400 page for a caught `ValueError`/`ValidationError`, or the
500 page for anything else. -/
inductive Response where
  | page (output : String) (token_count : Nat) (transcript_available : Bool)
  | clientError (message : String)
  | serverError (message : String)
deriving DecidableEq

/-- How the route renders a `ValidationError`'s messages as one string
(`str(e)`); the exact layout is presentational, joining is enough. -/
def renderErrors (errs : List String) : String :=
  String.intercalate "; " errs

/-- `process_video` (src/main.py lines 57-104) composed with
`YouTubeProcessor.process_video` (src/processor.py lines 38-59):
validate into a `VideoQuery` (a `ValidationError` is caught as a 400),
extract the identifier (a `ValueError` likewise), fetch metadata and
transcript, record the detected language when truthy, format, and hand
the document with its token estimate to the template.  `tok` stands for
the external `estimate_tokens`. -/
def process_video_route (menv : MetadataEnv) (tenv : TranscriptEnv)
    (tok : String → Nat) (url : String) (max_transcript_length : Int)
    (language : String) : Response :=
  match mkVideoQuery url max_transcript_length language with
  | Except.error errs => Response.clientError (renderErrors errs)
  | Except.ok q =>
    match extract_video_id q.url with
    | Except.error e => Response.clientError e
    | Except.ok vid =>
      let info := get_video_info menv vid q.url
      let tr := get_transcript tenv vid q.language q.max_transcript_length.toNat
      let info2 :=
        match tr.2 with
        | some l =>
          if l != "" then { info with detected_transcript_language := some l }
          else info
        | none => info
      let tstr := tr.1.map (fun l => String.mk l)
      let output := format_output info2 tstr
      Response.page output (tok output) tstr.isSome

/-! ### Helper lemmas -/

lemma stripLit_eq {p s t : List Char} (h : stripLit p s = some t) :
    s = p ++ t := by
  unfold stripLit at h
  split at h
  · rename_i hp
    cases h
    obtain ⟨r, hr⟩ := List.isPrefixOf_iff_prefix.mp hp
    subst hr
    rw [List.drop_left]
  · cases h

lemma matchIdHere_spec {s g : List Char} (h : matchIdHere s = some g) :
    g = s.take 11 ∧ g.length = 11 ∧ g.all idChar = true := by
  unfold matchIdHere at h
  split at h
  · rename_i hc
    cases h
    simp only [Bool.and_eq_true, beq_iff_eq] at hc
    exact ⟨rfl, hc.1, hc.2⟩
  · cases h

lemma matchCore_spec {m s g : List Char} (h : matchCore m s = some g) :
    g.length = 11 ∧ g.all idChar = true ∧ (m ++ g) <+: s := by
  unfold matchCore at h
  cases hs : stripLit m s with
  | none => rw [hs] at h; cases h
  | some rest =>
    rw [hs] at h
    simp only [Option.some_bind] at h
    obtain ⟨hg, hlen, hall⟩ := matchIdHere_spec h
    refine ⟨hlen, hall, ?_⟩
    rw [stripLit_eq hs, hg]
    exact ⟨rest.drop 11, by rw [List.append_assoc, List.take_append_drop]⟩

lemma matchAfterWww_spec {m t g : List Char} (h : matchAfterWww m t = some g) :
    ∃ u, u <:+ t ∧ matchCore m u = some g := by
  unfold matchAfterWww at h
  split at h
  · rename_i u hw
    split at h
    · rename_i g0 hc
      cases h
      exact ⟨u, by rw [stripLit_eq hw]; exact List.suffix_append _ _, hc⟩
    · exact ⟨t, List.suffix_refl t, h⟩
  · exact ⟨t, List.suffix_refl t, h⟩

lemma matchShape_spec {m s g : List Char} (h : matchShape m s = some g) :
    ∃ u, u <:+ s ∧ matchCore m u = some g := by
  have sufOf : ∀ {p t : List Char}, stripLit p s = some t →
      ∀ r, r <:+ t → r <:+ s := by
    intro p t hp r hr
    rw [stripLit_eq hp]
    exact hr.trans (List.suffix_append _ _)
  unfold matchShape at h
  split at h
  · rename_i t h1
    split at h
    · rename_i g0 h2
      cases h
      obtain ⟨u, hu, hc⟩ := matchAfterWww_spec h2
      exact ⟨u, sufOf h1 u hu, hc⟩
    · obtain ⟨u, hu, hc⟩ := matchAfterWww_spec h
      exact ⟨u, hu, hc⟩
  · rename_i h1
    split at h
    · rename_i t h3
      split at h
      · rename_i g0 h4
        cases h
        obtain ⟨u, hu, hc⟩ := matchAfterWww_spec h4
        exact ⟨u, sufOf h3 u hu, hc⟩
      · obtain ⟨u, hu, hc⟩ := matchAfterWww_spec h
        exact ⟨u, hu, hc⟩
    · obtain ⟨u, hu, hc⟩ := matchAfterWww_spec h
      exact ⟨u, hu, hc⟩

lemma searchShape_spec {m : List Char} :
    ∀ {s g : List Char}, searchShape m s = some g →
      ∃ u, u <:+ s ∧ matchCore m u = some g := by
  intro s
  induction s with
  | nil =>
    intro g h
    exact matchShape_spec h
  | cons c rest ih =>
    intro g h
    unfold searchShape at h
    split at h
    · rename_i g0 hm
      cases h
      exact matchShape_spec hm
    · obtain ⟨u, hu, hc⟩ := ih h
      exact ⟨u, hu.trans (List.suffix_cons c rest), hc⟩

lemma matchShape_searchShape {m s g : List Char}
    (h : matchShape m s = some g) : searchShape m s = some g := by
  cases s with
  | nil => exact h
  | cons c rest => unfold searchShape; rw [h]

lemma validate_error_msg {url e : String}
    (h : validate_youtube_url url = Except.error e) :
    e = "Invalid YouTube URL format" := by
  unfold validate_youtube_url at h
  split at h
  · cases h
  · cases h; rfl

lemma formattedOf_decomp {env : TranscriptEnv} {language : String}
    {T : List Char} (h : formattedOf env language = some T) :
    ∃ tl t d, env.listResult = some tl ∧
      selectTrack tl language = some (t, d) ∧ t.fetched = some (some T) := by
  unfold formattedOf selectedOf at h
  rw [Option.bind_eq_some] at h
  obtain ⟨p, hp, h2⟩ := h
  rw [Option.bind_eq_some] at hp
  obtain ⟨tl, hl, hsel⟩ := hp
  rw [Option.bind_eq_some] at h2
  obtain ⟨fr, hfet, hfr⟩ := h2
  exact ⟨tl, p.1, p.2, hl, by rw [← hsel], by rw [hfet, hfr]⟩

lemma get_transcript_success {env : TranscriptEnv} {tl : TranscriptList}
    {t : CaptionTrack} {d : String} {T : List Char}
    {video_id language : String} {max_length : Nat}
    (hA : env.apiAvailable = true) (hF : env.formatterAvailable = true)
    (hL : env.listResult = some tl)
    (hS : selectTrack tl language = some (t, d))
    (hfet : t.fetched = some (some T)) :
    get_transcript env video_id language max_length =
      if max_length != 0 && decide (T.length > max_length) then
        (some (T.take max_length ++ truncMarker), some d)
      else (some T, some d) := by
  unfold get_transcript
  simp only [hA, hF, hL, hS, hfet, Bool.not_true, Bool.or_self,
    Bool.false_eq_true, if_false]

lemma get_transcript_fst_some {env : TranscriptEnv}
    {video_id language : String} {max_length : Nat} {text : List Char}
    (h : (get_transcript env video_id language max_length).1 = some text) :
    ∃ T, formattedOf env language = some T ∧
      ((text = T ∧ (max_length = 0 ∨ T.length ≤ max_length)) ∨
        (max_length ≠ 0 ∧ max_length < T.length ∧
          text = T.take max_length ++ truncMarker)) := by
  unfold get_transcript at h
  cases hA : env.apiAvailable <;> simp only [hA] at h
  · simp at h
  cases hF : env.formatterAvailable <;> simp only [hF] at h
  · simp at h
  simp only [Bool.not_true, Bool.or_self, Bool.false_eq_true, if_false] at h
  cases hL : env.listResult with
  | none => simp only [hL] at h; simp at h
  | some tl =>
    simp only [hL] at h
    cases hS : selectTrack tl language with
    | none => simp only [hS] at h; simp at h
    | some p =>
      obtain ⟨t, d⟩ := p
      simp only [hS] at h
      cases hfet : t.fetched with
      | none => simp only [hfet] at h; simp at h
      | some fr =>
        simp only [hfet] at h
        cases fr with
        | none => simp at h
        | some T =>
          dsimp only at h
          refine ⟨T, by simp [formattedOf, selectedOf, hL, hS, hfet], ?_⟩
          by_cases hc : (max_length != 0 && decide (T.length > max_length)) = true
          · rw [if_pos hc] at h
            simp only [bne_iff_ne, ne_eq, Bool.and_eq_true, decide_eq_true_eq,
              gt_iff_lt] at hc
            simp only [Option.some.injEq] at h
            exact Or.inr ⟨hc.1, hc.2, h.symm⟩
          · rw [if_neg hc] at h
            simp only [bne_iff_ne, ne_eq, Bool.and_eq_true, decide_eq_true_eq,
              gt_iff_lt, not_and, not_lt] at hc
            simp only [Option.some.injEq] at h
            rcases Decidable.em (max_length = 0) with h0 | h0
            · exact Or.inl ⟨h.symm, Or.inl h0⟩
            · exact Or.inl ⟨h.symm, Or.inr (hc h0)⟩

/-! ### Claims -/

/-- C1: the metadata fetcher never raises: when the yt-dlp tier is
unavailable or throws and the pytube tier is unavailable or throws,
`_get_video_info` returns the minimal placeholder record with title
`"Video <id>"`, channel `"Unknown Channel"`, duration `0` and thumbnail
URL `"https://img.youtube.com/vi/<id>/maxresdefault.jpg"`. -/
theorem C1_metadata_minimal_fallback (env : MetadataEnv)
    (video_id url : String)
    (h1 : env.ytDlpAvailable = false ∨ env.ytDlpResult = none)
    (h2 : env.pytubeAvailable = false ∨ env.pytubeResult = none) :
    get_video_info env video_id url = minimalFallbackInfo video_id url ∧
    (get_video_info env video_id url).title = "Video " ++ video_id ∧
    (get_video_info env video_id url).channel = some "Unknown Channel" ∧
    (get_video_info env video_id url).duration = 0 ∧
    (get_video_info env video_id url).thumbnail_url =
      some ("https://img.youtube.com/vi/" ++ video_id ++
        "/maxresdefault.jpg") := by
  have hy : (if env.ytDlpAvailable then env.ytDlpResult else none) = none := by
    rcases h1 with h | h <;> simp [h]
  have hp : (if env.pytubeAvailable then env.pytubeResult else none) = none := by
    rcases h2 with h | h <;> simp [h]
  have hmain : get_video_info env video_id url =
      minimalFallbackInfo video_id url := by
    unfold get_video_info
    rw [hy, hp]
  exact ⟨hmain, by rw [hmain]; rfl, by rw [hmain]; rfl, by rw [hmain]; rfl,
    by rw [hmain]; rfl⟩

theorem C1_witness :
    get_video_info ⟨false, none, false, none⟩ "dQw4w9WgXcQ"
        "https://youtu.be/dQw4w9WgXcQ" =
      minimalFallbackInfo "dQw4w9WgXcQ" "https://youtu.be/dQw4w9WgXcQ" ∧
    (get_video_info ⟨false, none, false, none⟩ "dQw4w9WgXcQ"
        "https://youtu.be/dQw4w9WgXcQ").title = "Video " ++ "dQw4w9WgXcQ" ∧
    (get_video_info ⟨false, none, false, none⟩ "dQw4w9WgXcQ"
        "https://youtu.be/dQw4w9WgXcQ").channel = some "Unknown Channel" ∧
    (get_video_info ⟨false, none, false, none⟩ "dQw4w9WgXcQ"
        "https://youtu.be/dQw4w9WgXcQ").duration = 0 ∧
    (get_video_info ⟨false, none, false, none⟩ "dQw4w9WgXcQ"
        "https://youtu.be/dQw4w9WgXcQ").thumbnail_url =
      some ("https://img.youtube.com/vi/" ++ "dQw4w9WgXcQ" ++
        "/maxresdefault.jpg") :=
  C1_metadata_minimal_fallback ⟨false, none, false, none⟩ "dQw4w9WgXcQ"
    "https://youtu.be/dQw4w9WgXcQ" (Or.inl rfl) (Or.inl rfl)

/-- C2: `_get_transcript` returns the pair `(None, None)` — never an
exception — both when the caption backend library (or its formatter) is
unavailable and when any stage fails: `list_transcripts` raising,
selection producing no track, `fetch` raising or formatting raising
(all of which make `formattedOf` come out `none`).  Both paths produce
the identical tuple `(none, none)`. -/
theorem C2_transcript_never_raises (env : TranscriptEnv)
    (video_id language : String) (max_length : Nat)
    (h : env.apiAvailable = false ∨ env.formatterAvailable = false ∨
      formattedOf env language = none) :
    get_transcript env video_id language max_length = (none, none) := by
  unfold get_transcript
  rcases h with h | h | h
  · rw [h]; rfl
  · rw [h]; simp
  · split
    · rfl
    cases henv : env.listResult with
    | none => simp only [henv]
    | some tl =>
      simp only [henv]
      unfold formattedOf selectedOf at h
      simp only [henv, Option.some_bind] at h
      cases hsel : selectTrack tl language with
      | none => simp only [hsel]
      | some p =>
        obtain ⟨t, d⟩ := p
        simp only [hsel, Option.some_bind] at h
        simp only [hsel]
        cases hfet : t.fetched with
        | none => simp only [hfet]
        | some fr =>
          simp only [hfet, Option.some_bind] at h
          simp only [hfet]
          cases fr with
          | none => rfl
          | some T => cases h

theorem C2_witness :
    get_transcript ⟨false, true, none⟩ "dQw4w9WgXcQ" "en" 10000 =
      (none, none) :=
  C2_transcript_never_raises ⟨false, true, none⟩ "dQw4w9WgXcQ" "en" 10000
    (Or.inl rfl)

/-- C3: for every `max_length ≥ 100`, when the pipeline reaches the
truncation step with formatted text `T`, the transcript returned is
exactly `T` when `T` has at most `max_length` characters, and exactly
the first `max_length` characters of `T` followed by the literal marker
`"\n[Transcript truncated...]"` otherwise. -/
theorem C3_truncation_policy (env : TranscriptEnv)
    (video_id language : String) (max_length : Nat) (T : List Char)
    (hA : env.apiAvailable = true) (hF : env.formatterAvailable = true)
    (hT : formattedOf env language = some T) (h100 : 100 ≤ max_length) :
    (get_transcript env video_id language max_length).1 =
      some (if T.length ≤ max_length then T
        else T.take max_length ++ truncMarker) := by
  obtain ⟨tl, t, d, hL, hS, hfet⟩ := formattedOf_decomp hT
  rw [@get_transcript_success env tl t d T video_id language max_length
    hA hF hL hS hfet]
  by_cases hle : T.length ≤ max_length
  · have hc : (max_length != 0 && decide (T.length > max_length)) = false := by
      simp only [Bool.and_eq_false_iff, decide_eq_false_iff_not, gt_iff_lt,
        not_lt]
      exact Or.inr hle
    rw [hc, if_neg (by simp), if_pos hle]
  · have hc : (max_length != 0 && decide (T.length > max_length)) = true := by
      simp only [Bool.and_eq_true, bne_iff_ne, ne_eq, decide_eq_true_eq,
        gt_iff_lt]
      omega
    rw [hc, if_pos rfl, if_neg hle]

theorem C3_witness :
    (get_transcript
        ⟨true, true, some ⟨[⟨"en", false, some (some (List.replicate 150 'a'))⟩]⟩⟩
        "dQw4w9WgXcQ" "en" 100).1 =
      some (if (List.replicate 150 'a').length ≤ 100 then List.replicate 150 'a'
        else (List.replicate 150 'a').take 100 ++ truncMarker) :=
  C3_truncation_policy
    ⟨true, true, some ⟨[⟨"en", false, some (some (List.replicate 150 'a'))⟩]⟩⟩
    "dQw4w9WgXcQ" "en" 100 (List.replicate 150 'a') rfl rfl (by decide)
    (by decide)

/-- C10: for every `max_length ≥ 100`, whenever `_get_transcript`
returns a non-`None` text, its length is at most `max_length + 26`
(the marker `"\n[Transcript truncated...]"` has 26 characters): it is
either the untruncated text of length at most `max_length` or a
truncated text of length exactly `max_length + 26`. -/
theorem C10_transcript_length_bound (env : TranscriptEnv)
    (video_id language : String) (max_length : Nat) (text : List Char)
    (h100 : 100 ≤ max_length)
    (h : (get_transcript env video_id language max_length).1 = some text) :
    text.length ≤ max_length + 26 ∧
    (text.length ≤ max_length ∨ text.length = max_length + 26) := by
  obtain ⟨T, hT, hcase⟩ := get_transcript_fst_some h
  rcases hcase with ⟨rfl, h0 | hle⟩ | ⟨hne, hlt, rfl⟩
  · omega
  · exact ⟨by omega, Or.inl hle⟩
  · have hmark : truncMarker.length = 26 := rfl
    have hlen : (T.take max_length ++ truncMarker).length = max_length + 26 := by
      rw [List.length_append, List.length_take, hmark]
      omega
    exact ⟨le_of_eq hlen, Or.inr hlen⟩

theorem C10_witness :
    ((List.replicate 150 'b').take 100 ++ truncMarker).length ≤ 100 + 26 ∧
    (((List.replicate 150 'b').take 100 ++ truncMarker).length ≤ 100 ∨
      ((List.replicate 150 'b').take 100 ++ truncMarker).length = 100 + 26) :=
  C10_transcript_length_bound
    ⟨true, true, some ⟨[⟨"en", false, some (some (List.replicate 150 'b'))⟩]⟩⟩
    "dQw4w9WgXcQ" "en" 100 ((List.replicate 150 'b').take 100 ++ truncMarker)
    (by decide) (by decide)

/-- C7: the track-selection policy tries, in order, first success wins:
a manually-created track in the requested language, an auto-generated
track in the requested language (the detected language stays the
requested one in both cases), any manually-created track (first
enumerated; detected language becomes that track's code), any track at
all (first enumerated; likewise), and yields `(None, None)` from
`_get_transcript` when no track exists. -/
theorem C7_selection_policy (tl : TranscriptList) (language : String) :
    (∀ t, find_manually_created tl language = some t →
      selectTrack tl language = some (t, language)) ∧
    (∀ t, find_manually_created tl language = none →
      find_generated tl language = some t →
      selectTrack tl language = some (t, language)) ∧
    (∀ t, find_manually_created tl language = none →
      find_generated tl language = none →
      tl.tracks.find? (fun t => !t.is_generated) = some t →
      selectTrack tl language = some (t, t.language_code)) ∧
    (find_manually_created tl language = none →
      find_generated tl language = none →
      tl.tracks.find? (fun t => !t.is_generated) = none →
      selectTrack tl language =
        tl.tracks.head?.map (fun t => (t, t.language_code))) ∧
    (tl.tracks = [] → ∀ (env : TranscriptEnv) (video_id : String)
      (max_length : Nat), env.listResult = some tl →
      get_transcript env video_id language max_length = (none, none)) := by
  refine ⟨?_, ?_, ?_, ?_, ?_⟩
  · intro t h1
    unfold selectTrack
    rw [h1]
  · intro t h1 h2
    unfold selectTrack
    rw [h1, h2]
  · intro t h1 h2 h3
    unfold selectTrack
    rw [h1, h2, h3]
  · intro h1 h2 h3
    unfold selectTrack
    rw [h1, h2, h3]
    cases tl.tracks.head? <;> rfl
  · intro hnil env video_id max_length henv
    have hsel : selectTrack tl language = none := by
      unfold selectTrack find_manually_created find_generated
      rw [hnil]
      rfl
    unfold get_transcript
    split
    · rfl
    simp only [henv, hsel]

theorem C7_witness :
    selectTrack ⟨[⟨"de", true, none⟩, ⟨"en", false, none⟩]⟩ "en" =
      some (⟨"en", false, none⟩, "en") :=
  (C7_selection_policy ⟨[⟨"de", true, none⟩, ⟨"en", false, none⟩]⟩ "en").1
    ⟨"en", false, none⟩ (by decide)

/-- C8: `format_duration` computes hours as floor division of the
seconds by 3600, minutes as the floor division of the remainder by 60
and seconds as the remainder modulo 60 (Python floor-division/modulo
semantics), emits `"{h}h {m}m {s}s"` when hours are positive, else
`"{m}m {s}s"` when minutes are positive, else `"{s}s"`, and in
particular maps 0, 45, 125, 3600 and 3725 to `"0s"`, `"45s"`,
`"2m 5s"`, `"1h 0m 0s"` and `"1h 2m 5s"`. -/
theorem C8_format_duration_rule :
    (∀ seconds : Int, format_duration seconds =
      (if seconds.fdiv 3600 > 0 then
        toString (seconds.fdiv 3600) ++ "h " ++
          toString ((seconds.emod 3600).fdiv 60) ++ "m " ++
          toString (seconds.emod 60) ++ "s"
      else if (seconds.emod 3600).fdiv 60 > 0 then
        toString ((seconds.emod 3600).fdiv 60) ++ "m " ++
          toString (seconds.emod 60) ++ "s"
      else toString (seconds.emod 60) ++ "s")) ∧
    format_duration 0 = "0s" ∧
    format_duration 45 = "45s" ∧
    format_duration 125 = "2m 5s" ∧
    format_duration 3600 = "1h 0m 0s" ∧
    format_duration 3725 = "1h 2m 5s" :=
  ⟨fun _ => rfl, rfl, rfl, rfl, rfl, rfl⟩

/-- C4: every URL the validator accepts is resolved by
`extract_video_id` without reaching its error branch, and the resolved
token is an 11-character string over `[a-zA-Z0-9_-]` occurring in the
URL immediately after one of the three recognized markers (which is how
the token is embedded, independent of scheme or `www.` presence). -/
theorem C4_resolver_succeeds_on_validated (url : String)
    (h : validate_youtube_url url = Except.ok url) :
    extract_video_id url = Except.ok (String.mk (tokenOf url)) ∧
    (tokenOf url).length = 11 ∧
    (tokenOf url).all idChar = true ∧
    ((watchMarker ++ tokenOf url) <:+: url.data ∨
      (shortMarker ++ tokenOf url) <:+: url.data ∨
      (embedMarker ++ tokenOf url) <:+: url.data) := by
  have hval : markers.any (fun m => (matchShape m url.data).isSome) = true := by
    unfold validate_youtube_url at h
    split at h
    · assumption
    · cases h
  obtain ⟨m, hm, hsome⟩ := List.any_eq_true.mp hval
  obtain ⟨g, hg⟩ := Option.isSome_iff_exists.mp hsome
  have hne : extractedId url ≠ none := by
    intro hnone
    unfold extractedId at hnone
    rw [List.head?_eq_none_iff, List.filterMap_eq_nil_iff] at hnone
    have := hnone m hm
    rw [matchShape_searchShape hg] at this
    cases this
  cases hE : extractedId url with
  | none => exact absurd hE hne
  | some g0 =>
    have htok : tokenOf url = g0 := by unfold tokenOf; rw [hE]; rfl
    have hmem : g0 ∈ markers.filterMap (fun m => searchShape m url.data) := by
      unfold extractedId at hE
      exact List.mem_of_mem_head? (by rw [hE]; exact Option.mem_some_iff.mpr rfl)
    obtain ⟨m0, hm0, hs0⟩ := List.mem_filterMap.mp hmem
    obtain ⟨u, hu, hcore⟩ := searchShape_spec hs0
    obtain ⟨hlen, hall, hpre⟩ := matchCore_spec hcore
    have hinf : (m0 ++ g0) <:+: url.data := hpre.isInfix.trans hu.isInfix
    refine ⟨?_, ?_, ?_, ?_⟩
    · unfold extract_video_id
      rw [hE, htok]
    · rw [htok]; exact hlen
    · rw [htok]; exact hall
    · rw [htok]
      simp only [markers, List.mem_cons, List.mem_singleton,
        List.not_mem_nil, or_false] at hm0
      rcases hm0 with rfl | rfl | rfl
      · exact Or.inl hinf
      · exact Or.inr (Or.inl hinf)
      · exact Or.inr (Or.inr hinf)

theorem C4_witness :
    extract_video_id "https://www.youtube.com/watch?v=dQw4w9WgXcQ" =
      Except.ok
        (String.mk (tokenOf "https://www.youtube.com/watch?v=dQw4w9WgXcQ")) ∧
    (tokenOf "https://www.youtube.com/watch?v=dQw4w9WgXcQ").length = 11 ∧
    (tokenOf "https://www.youtube.com/watch?v=dQw4w9WgXcQ").all idChar = true ∧
    ((watchMarker ++ tokenOf "https://www.youtube.com/watch?v=dQw4w9WgXcQ") <:+:
        "https://www.youtube.com/watch?v=dQw4w9WgXcQ".data ∨
      (shortMarker ++ tokenOf "https://www.youtube.com/watch?v=dQw4w9WgXcQ") <:+:
        "https://www.youtube.com/watch?v=dQw4w9WgXcQ".data ∨
      (embedMarker ++ tokenOf "https://www.youtube.com/watch?v=dQw4w9WgXcQ") <:+:
        "https://www.youtube.com/watch?v=dQw4w9WgXcQ".data) :=
  C4_resolver_succeeds_on_validated
    "https://www.youtube.com/watch?v=dQw4w9WgXcQ" rfl

/-- C6 counterexample: `"xyoutu.be/dQw4w9WgXcQ"` matches no recognized
shape at the start of the string, so the Validator rejects it, yet the
Resolver's `re.search` finds the short-link shape at position 1 and
returns the token instead of rejecting — refuting the claim that every
URL rejected by the Validator is also rejected by the Resolver. -/
theorem C6_counterexample :
    validate_youtube_url "xyoutu.be/dQw4w9WgXcQ" =
      Except.error "Invalid YouTube URL format" ∧
    extract_video_id "xyoutu.be/dQw4w9WgXcQ" = Except.ok "dQw4w9WgXcQ" :=
  ⟨rfl, rfl⟩

/-- C6 (amended): for every URL string in which none of the three
recognized shapes occurs at any position, both the Validator and the
Resolver reject it, each raising the same error kind (`ValueError`,
modelled as `Except.error`) with its documented message. -/
theorem C6_both_reject_when_no_shape_occurs (url : String)
    (h : ∀ m ∈ markers, searchShape m url.data = none) :
    validate_youtube_url url = Except.error "Invalid YouTube URL format" ∧
    extract_video_id url = Except.error "Could not extract video ID from URL" := by
  constructor
  · unfold validate_youtube_url
    have hany : markers.any (fun m => (matchShape m url.data).isSome) = false := by
      rw [List.any_eq_false]
      intro m hm
      cases hms : matchShape m url.data with
      | none => simp
      | some g =>
        have := matchShape_searchShape hms
        rw [h m hm] at this
        cases this
    rw [hany]
    rfl
  · unfold extract_video_id extractedId
    rw [List.filterMap_eq_nil_iff.mpr h]
    rfl

theorem C6_witness :
    validate_youtube_url "hello" = Except.error "Invalid YouTube URL format" ∧
    extract_video_id "hello" =
      Except.error "Could not extract video ID from URL" :=
  C6_both_reject_when_no_shape_occurs "hello" (by decide)

/-- C5: constructing a `VideoQuery` succeeds exactly when the URL
matches a recognized shape and the transcript-length bound is at least
100; a violation fails with a `ValidationError` whose messages are the
two documented human-readable strings, and the `/process` route then
returns the client-error response without consulting the metadata or
transcript environments — no fetch is attempted. -/
theorem C5_validation_gate (url : String) (maxLen : Int) (language : String) :
    ((∃ q, mkVideoQuery url maxLen language = Except.ok q) ↔
      ((∃ v, validate_youtube_url url = Except.ok v) ∧ 100 ≤ maxLen)) ∧
    (∀ errs, mkVideoQuery url maxLen language = Except.error errs →
      errs ≠ [] ∧
      (∀ e ∈ errs, e = "Invalid YouTube URL format" ∨
        e = "Transcript length must be at least 100 characters") ∧
      ∀ (menv : MetadataEnv) (tenv : TranscriptEnv) (tok : String → Nat),
        process_video_route menv tenv tok url maxLen language =
          Response.clientError (renderErrors errs)) := by
  cases hv : validate_youtube_url url with
  | ok v =>
    by_cases hlen : maxLen < 100
    · have hmk : mkVideoQuery url maxLen language =
          Except.error ["Transcript length must be at least 100 characters"] := by
        unfold mkVideoQuery
        rw [hv, if_pos hlen]
        rfl
      refine ⟨⟨?_, ?_⟩, ?_⟩
      · rintro ⟨q, hq⟩
        rw [hmk] at hq
        cases hq
      · rintro ⟨-, h100⟩
        omega
      · intro errs herrs
        rw [hmk] at herrs
        injection herrs with he
        subst he
        refine ⟨by simp, ?_, ?_⟩
        · intro e he
          rcases List.mem_singleton.mp he with rfl
          exact Or.inr rfl
        · intro menv tenv tok
          simp only [process_video_route, hmk]
    · have hmk : mkVideoQuery url maxLen language =
          Except.ok ⟨url, maxLen, false, language⟩ := by
        unfold mkVideoQuery
        rw [hv, if_neg hlen]
        rfl
      refine ⟨⟨?_, ?_⟩, ?_⟩
      · intro
        exact ⟨⟨v, rfl⟩, by omega⟩
      · intro
        exact ⟨_, hmk⟩
      · intro errs herrs
        rw [hmk] at herrs
        cases herrs
  | error e =>
    have he := validate_error_msg hv
    subst he
    have hiff : ¬ ∃ v, (Except.error "Invalid YouTube URL format" :
        Except String String) = Except.ok v := by
      rintro ⟨v, hva⟩
      cases hva
    by_cases hlen : maxLen < 100
    · have hmk : mkVideoQuery url maxLen language =
          Except.error ["Invalid YouTube URL format",
            "Transcript length must be at least 100 characters"] := by
        unfold mkVideoQuery
        rw [hv, if_pos hlen]
        rfl
      refine ⟨⟨?_, ?_⟩, ?_⟩
      · rintro ⟨q, hq⟩
        rw [hmk] at hq
        cases hq
      · rintro ⟨hva, -⟩
        exact absurd hva hiff
      · intro errs herrs
        rw [hmk] at herrs
        injection herrs with he2
        subst he2
        refine ⟨by simp, ?_, ?_⟩
        · intro e he
          rcases List.mem_cons.mp he with rfl | he3
          · exact Or.inl rfl
          · rcases List.mem_singleton.mp he3 with rfl
            exact Or.inr rfl
        · intro menv tenv tok
          simp only [process_video_route, hmk]
    · have hmk : mkVideoQuery url maxLen language =
          Except.error ["Invalid YouTube URL format"] := by
        unfold mkVideoQuery
        rw [hv, if_neg hlen]
        rfl
      refine ⟨⟨?_, ?_⟩, ?_⟩
      · rintro ⟨q, hq⟩
        rw [hmk] at hq
        cases hq
      · rintro ⟨hva, -⟩
        exact absurd hva hiff
      · intro errs herrs
        rw [hmk] at herrs
        injection herrs with he2
        subst he2
        refine ⟨by simp, ?_, ?_⟩
        · intro e he
          rcases List.mem_singleton.mp he with rfl
          exact Or.inl rfl
        · intro menv tenv tok
          simp only [process_video_route, hmk]

theorem C5_witness :
    process_video_route ⟨false, none, false, none⟩ ⟨false, false, none⟩
        (fun _ => 0) "bad" 50 "en" =
      Response.clientError (renderErrors
        ["Invalid YouTube URL format",
          "Transcript length must be at least 100 characters"]) :=
  ((C5_validation_gate "bad" 50 "en").2
    ["Invalid YouTube URL format",
      "Transcript length must be at least 100 characters"] rfl).2.2
    ⟨false, none, false, none⟩ ⟨false, false, none⟩ (fun _ => 0)

/-- Python truthiness of the `view_count` value: shown only when the
key holds a non-`None`, nonzero number. -/
def viewCountShown (info : PyVideoInfo) : Bool :=
  match info.view_count with
  | some n => n != 0
  | none => false

/-- Python truthiness of the `upload_date` value: shown only when the
key holds a non-`None`, non-empty string. -/
def uploadDateShown (info : PyVideoInfo) : Bool :=
  match info.upload_date with
  | some d => d != ""
  | none => false

/-- The `### Description` block as the spec describes it. -/
def descriptionSection (info : PyVideoInfo) : List String :=
  match info.description with
  | some d => if d != "" then ["### Description\n", d, "\n"] else []
  | none => []

/-- The `### Transcript` block as the spec describes it. -/
def transcriptSection (info : PyVideoInfo) (transcript : Option String) :
    List String :=
  match transcript with
  | some t =>
    if t != "" then
      ["### Transcript\n"]
      ++ (match info.detected_transcript_language with
          | some l => if l != "" then ["*Language: " ++ l ++ "*\n"] else []
          | none => [])
      ++ [t]
    else ["### Transcript\n", "*Transcript not available for this video.*\n"]
  | none => ["### Transcript\n", "*Transcript not available for this video.*\n"]

/-- C9 counterexample: a metadata record whose view count is present
but zero.  The claim says the Views line appears whenever the view
count is present; the formatter's truthiness test drops it, so no line
of the document starts with `- **Views**`. -/
def zeroViewsInfo : PyVideoInfo :=
  { title := "Video dQw4w9WgXcQ"
    description := some "Description not available"
    duration := 0
    view_count := some 0
    channel := some "Unknown Channel"
    upload_date := none
    url := "https://youtu.be/dQw4w9WgXcQ"
    video_id := "dQw4w9WgXcQ"
    thumbnail_url := none }

theorem C9_counterexample :
    zeroViewsInfo.view_count = some 0 ∧
    (format_output_lines zeroViewsInfo none).any
      (fun l => "- **Views**".data.isPrefixOf l.data) = false :=
  ⟨rfl, rfl⟩

/-- C9 (amended): in the metadata block, the Views line
(thousands-grouped) appears iff the view count is present and nonzero,
and the Upload Date line appears iff the upload date is present and
non-empty (Python truthiness); the Video ID, Channel, Duration and URL
lines always appear, in that fixed order. -/
theorem C9_metadata_block_structure (info : PyVideoInfo)
    (transcript : Option String) :
    format_output_lines info transcript =
      ["# YouTube Video Documentation\n",
        "## " ++ info.title ++ "\n",
        "### Metadata\n",
        "- **Video ID**: " ++ info.video_id,
        "- **Channel**: " ++ pyOptStr info.channel,
        "- **Duration**: " ++ format_duration info.duration]
      ++ (if viewCountShown info then
            ["- **Views**: " ++ commaGroup (info.view_count.getD 0)] else [])
      ++ (if uploadDateShown info then
            ["- **Upload Date**: " ++ info.upload_date.getD ""] else [])
      ++ ["- **URL**: " ++ info.url ++ "\n"]
      ++ descriptionSection info
      ++ transcriptSection info transcript := by
  unfold format_output_lines viewCountShown uploadDateShown descriptionSection
    transcriptSection
  cases info.view_count <;> cases info.upload_date <;> simp

end YtDoc
